import Mathlib

/-!
Shallow embedding of `main.py` from vscan-graphql-introspection-checker.

The program sends a fixed GraphQL introspection query to a URL and decides
from the HTTP response whether introspection is enabled.  The HTTP layer
(the `requests` library) is modelled as an oracle (`Transport`) supplying
the outcome of the POST and of the optional fallback GET; the JSON parser
(Python `json` / `response.json()`) is modelled by a `jsonBody : Option Json`
field on the response (`none` = a JSON decode failure).  Everything the
program itself does (branching, header parsing, URL normalisation, the
membership tests on the parsed JSON, exception handling, logging, printing)
is translated directly from the source.
-/

namespace VScan

/-- Substring containment, the semantics of Python's `needle in hay` on strings. -/
def strContains (hay needle : String) : Bool :=
  (List.range (hay.data.length + 1)).any (fun i => needle.data.isPrefixOf (hay.data.drop i))

/-- Python's `str.lower()`, character by character (ASCII-faithful, which is
all the source compares against). -/
def lowerStr (s : String) : String :=
  ⟨s.data.map Char.toLower⟩

/-- Python's `str.strip()`: drop whitespace from both ends. -/
def trimStr (s : String) : String :=
  ⟨(((s.data.dropWhile Char.isWhitespace).reverse).dropWhile Char.isWhitespace).reverse⟩

/-- Python's `s.startswith(p)`. -/
def startsWithStr (s p : String) : Bool :=
  p.data.isPrefixOf s.data

/-- JSON values as produced by Python's `json` module:  `null`, booleans,
numbers (the distinction int/float is irrelevant here, we keep an `Int`),
strings, arrays and objects. -/
inductive Json where
  | null : Json
  | bool (b : Bool) : Json
  | num (n : Int) : Json
  | str (s : String) : Json
  | arr (elems : List Json) : Json
  | obj (fields : List (String × Json)) : Json

/-- Python equality of a JSON value against a `str`: only an equal string
compares equal (used for `'x' in list`). -/
def jsonEqStr (j : Json) (s : String) : Bool :=
  match j with
  | .str t => t = s
  | _ => false

/-- Lookup in an object's field list; later duplicates win, as in a Python
dict built by `json.loads`. -/
def objLookup : List (String × Json) → String → Option Json
  | [], _ => none
  | p :: rest, k =>
    match objLookup rest k with
    | some v => some v
    | none => if p.1 = k then some p.2 else none

/-- Kinds of Python exceptions distinguished by the `except` clauses of
`check_introspection`:  `requests.exceptions.RequestException`,
`json.JSONDecodeError`, and everything else (e.g. the `TypeError` raised by
`in` on a non-container). -/
inductive PyExnKind where
  | requestException : PyExnKind
  | jsonDecodeError : PyExnKind
  | otherError : PyExnKind
  deriving DecidableEq, Repr

/-- Python's `needle in j` for a parsed JSON value `j`:  key membership on a
dict, element equality on a list, substring on a string, `TypeError`
otherwise. -/
def pyIn (needle : String) (j : Json) : Except PyExnKind Bool :=
  match j with
  | .obj fields => .ok (fields.any (fun p => p.1 = needle))
  | .arr elems => .ok (elems.any (fun e => jsonEqStr e needle))
  | .str s => .ok (strContains s needle)
  | _ => .error .otherError

/-- Python's `j[key]` for a parsed JSON value:  dict lookup, `TypeError` when
`j` is not a dict (`KeyError`, also mapped to `otherError`, cannot occur on
the only call site because membership is checked first). -/
def pyIndex (j : Json) (key : String) : Except PyExnKind Json :=
  match j with
  | .obj fields =>
    match objLookup fields key with
    | some v => .ok v
    | none => .error .otherError
  | _ => .error .otherError

/-- The test `'data' in data and '__schema' in data['data']` from
`check_introspection` (main.py line 150), with Python's short-circuit `and`. -/
def introspectionTest (data : Json) : Except PyExnKind Bool :=
  match pyIn "data" data with
  | .error k => .error k
  | .ok false => .ok false
  | .ok true =>
    match pyIndex data "data" with
    | .error k => .error k
    | .ok v => pyIn "__schema" v

/-- An HTTP response as seen through the `requests` library: status code, the
`Content-Type` header (`none` when absent), the body parsed as JSON
(`none` when `response.json()` would raise), and the raw body text. -/
structure Response where
  status : Nat
  contentType : Option String
  jsonBody : Option Json
  text : String

/-- Faults the transport layer (`requests.post` / `requests.get`) can raise
instead of returning a response.  The first four are subclasses of
`requests.exceptions.RequestException` (connection error, timeout, DNS
failure, other request faults); `nonRequestExn` stands for any other
exception escaping the library call. -/
inductive TransportError where
  | connError : TransportError
  | timeoutErr : TransportError
  | dnsErr : TransportError
  | otherRequestExn : TransportError
  | nonRequestExn : TransportError
  deriving DecidableEq, Repr

/-- The exception kind a transport fault is caught as. -/
def TransportError.kind : TransportError → PyExnKind
  | .nonRequestExn => .otherError
  | _ => .requestException

/-- The oracle for the at most two HTTP calls of one probe: the outcome of
the POST and the outcome of the fallback GET (consulted only if issued). -/
structure Transport where
  postResult : Except TransportError Response
  getResult : Except TransportError Response

/-- Log events, one constructor per `logging.*` call site in main.py. -/
inductive LogEvent where
  | invalidHeader (s : String) : LogEvent
  | urlRequired : LogEvent
  | schemeWarning : LogEvent
  | checking (url : String) : LogEvent
  | htmlFallback : LogEvent
  | introspectionEnabled : LogEvent
  | introspectionNotEnabled : LogEvent
  | unexpectedContentType (ct : String) : LogEvent
  | requestFailed : LogEvent
  | jsonDecodeFailed (text : String) : LogEvent
  | unexpectedError : LogEvent
  deriving DecidableEq, Repr

/-- The log line a caught transport fault produces:  `RequestException` hits
the first `except` clause ("Request failed"), anything else falls through to
`except Exception` ("An unexpected error occurred"). -/
def TransportError.toLog : TransportError → LogEvent
  | .nonRequestExn => .unexpectedError
  | _ => .requestFailed

/-- HTTP method of an outgoing request. -/
inductive Method where
  | POST : Method
  | GET : Method
  deriving DecidableEq, Repr

/-- An outgoing HTTP request as built by `check_introspection`:
`jsonPayload` models the `json=payload` body of the POST, `params` the
`params=payload` query parameters of the fallback GET. -/
structure HttpRequest where
  method : Method
  url : String
  headers : List (String × String)
  jsonPayload : Option (List (String × String))
  params : Option (List (String × String))
  timeout : Nat
  deriving DecidableEq, Repr

/-- The constant GraphQL introspection document (main.py lines 12-96). -/
def INTROSPECTION_QUERY : String :=
  "\nquery IntrospectionQuery \x7b\n  __schema \x7b\n    queryType \x7b name \x7d\n    mutationType \x7b name \x7d\n    subscriptionType \x7b name \x7d\n    types \x7b\n      ...FullType\n    \x7d\n    directives \x7b\n      name\n      description\n      locations\n      args \x7b\n        ...InputValue\n      \x7d\n    \x7d\n  \x7d\n\x7d\n\nfragment FullType on __Type \x7b\n  kind\n  name\n  description\n  fields(includeDeprecated: true) \x7b\n    name\n    description\n    args \x7b\n      ...InputValue\n    \x7d\n    type \x7b\n      ...TypeRef\n    \x7d\n    isDeprecated\n    deprecationReason\n  \x7d\n  inputFields \x7b\n    ...InputValue\n  \x7d\n  interfaces \x7b\n    ...TypeRef\n  \x7d\n  enumValues(includeDeprecated: true) \x7b\n    name\n    description\n    isDeprecated\n    deprecationReason\n  \x7d\n  possibleTypes \x7b\n    ...TypeRef\n  \x7d\n\x7d\n\nfragment InputValue on __InputValue \x7b\n  name\n  description\n  type \x7b ...TypeRef \x7d\n  defaultValue\n\x7d\n\nfragment TypeRef on __Type \x7b\n  kind\n  name\n  ofType \x7b\n    kind\n    name\n    ofType \x7b\n      kind\n      name\n      ofType \x7b\n        kind\n        name\n        ofType \x7b\n          kind\n          name\n          ofType \x7b\n            kind\n            name\n          \x7d\n        \x7d\n      \x7d\n    \x7d\n  \x7d\n\x7d\n"

/-- The payload `\x7b'query': INTROSPECTION_QUERY\x7d` (main.py line 131). -/
def payload : List (String × String) := [("query", INTROSPECTION_QUERY)]

/-- The initial POST: JSON body, caller headers, 10 second timeout (line 134/136). -/
def mkPost (url : String) (headers : List (String × String)) : HttpRequest :=
  { method := .POST, url := url, headers := headers,
    jsonPayload := some payload, params := none, timeout := 10 }

/-- The fallback GET: same URL and headers, query as parameters, 10 second
timeout (line 141). -/
def mkGet (url : String) (headers : List (String × String)) : HttpRequest :=
  { method := .GET, url := url, headers := headers,
    jsonPayload := none, params := some payload, timeout := 10 }

/-- Translation of `is_html` (main.py lines 111-116):  the lowercased
`Content-Type` header, defaulted to the empty string when absent, contains
`text/html` as a substring. -/
def is_html (r : Response) : Bool :=
  strContains (lowerStr (r.contentType.getD "")) "text/html"

/-- Translation of `response.raise_for_status()` from the `requests`
library:  it raises `HTTPError` (a `RequestException`) exactly when
`400 <= status_code < 600`. -/
def raise_for_status (r : Response) : Except PyExnKind Unit :=
  if 400 ≤ r.status ∧ r.status < 600 then .error .requestException else .ok ()

/-- The response-classification part of `check_introspection` (lines
144-158), run on the final response inside the `try` block:  raise for bad
status, then branch on `Content-Type`, parse JSON and apply the
introspection test.  Returns the verdict plus the single log event of the
successful path, or the exception kind escaping to the `except` clauses. -/
def classifyResponse (r : Response) : Except PyExnKind (Bool × LogEvent) :=
  match raise_for_status r with
  | .error k => .error k
  | .ok _ =>
    let ct := lowerStr (r.contentType.getD "")
    if strContains ct "application/json" then
      match r.jsonBody with
      | none => .error .jsonDecodeError
      | some data =>
        match introspectionTest data with
        | .error k => .error k
        | .ok true => .ok (true, .introspectionEnabled)
        | .ok false => .ok (false, .introspectionNotEnabled)
    else .ok (false, .unexpectedContentType ct)

/-- The `except` clauses (lines 160-168):  every caught exception yields
`False`; a `RequestException` logs "Request failed", a `json.JSONDecodeError`
logs the error with the raw response text, anything else logs "An unexpected
error occurred". -/
def handleExn (k : PyExnKind) (respText : String) : Bool × LogEvent :=
  match k with
  | .requestException => (false, .requestFailed)
  | .jsonDecodeError => (false, .jsonDecodeFailed respText)
  | .otherError => (false, .unexpectedError)

/-- The request-issuing part of `check_introspection` (lines 133-141):
POST first; in non-forced mode, when the POST response is HTML, log and
retry once with a GET whose result replaces the POST result.  Returns the
final response (or the transport fault that escaped), the list of requests
issued, and the log events so far. -/
def obtainResponse (url : String) (headers : List (String × String))
    (use_post : Bool) (net : Transport) :
    Except TransportError Response × List HttpRequest × List LogEvent :=
  match net.postResult with
  | .error e => (.error e, [mkPost url headers], [])
  | .ok r0 =>
    if use_post then (.ok r0, [mkPost url headers], [])
    else if is_html r0 then
      match net.getResult with
      | .error e => (.error e, [mkPost url headers, mkGet url headers], [.htmlFallback])
      | .ok r1 => (.ok r1, [mkPost url headers, mkGet url headers], [.htmlFallback])
    else (.ok r0, [mkPost url headers], [])

/-- The observable outcome of one probe: the boolean verdict, the HTTP
requests issued, and the log events emitted. -/
structure ProbeRun where
  verdict : Bool
  requests : List HttpRequest
  logs : List LogEvent
  deriving DecidableEq, Repr

/-- Classification of the final response followed by the `except` clauses:
the part of the `try` block from line 144 on, together with lines 160-168,
applied to the final response. -/
def finishRun (r : Response) (reqs : List HttpRequest) (logs0 : List LogEvent) :
    ProbeRun :=
  match classifyResponse r with
  | .ok be => { verdict := be.1, requests := reqs, logs := logs0 ++ [be.2] }
  | .error k =>
    let be := handleExn k r.text
    { verdict := be.1, requests := reqs, logs := logs0 ++ [be.2] }

/-- Translation of `check_introspection` (main.py lines 118-168). -/
def check_introspection (url : String) (headers : List (String × String))
    (use_post : Bool) (net : Transport) : ProbeRun :=
  match obtainResponse url headers use_post net with
  | (.error e, reqs, logs0) =>
    { verdict := false, requests := reqs, logs := logs0 ++ [e.toLog] }
  | (.ok r, reqs, logs0) => finishRun r reqs logs0

/-- Python's `header_str.split(":", 1)` followed by tuple unpacking:  `none`
when the string has no colon (the `ValueError` case), otherwise the parts
before and after the first colon. -/
def splitFirstColon (s : String) : Option (String × String) :=
  match s.data.dropWhile (fun c => c ≠ ':') with
  | [] => none
  | _ :: tail => some (⟨s.data.takeWhile (fun c => c ≠ ':')⟩, ⟨tail⟩)

/-- Python dict assignment `d[k] = v`:  overwrite in place when the key
exists, append otherwise. -/
def dictInsert (d : List (String × String)) (k v : String) :
    List (String × String) :=
  if d.any (fun p => p.1 = k) then
    d.map (fun p => if p.1 = k then (k, v) else p)
  else d ++ [(k, v)]

/-- Python dict lookup on the association lists built by `dictInsert`
(keys are unique, so the first match is the binding). -/
def assocLookup (d : List (String × String)) (k : String) : Option String :=
  (d.find? (fun p => p.1 = k)).map (fun p => p.2)

/-- The loop body of `parse_headers`, threading the headers dict and the
error log through the list of `-H` arguments. -/
def parseHeadersAux (acc : List (String × String)) (logs : List LogEvent) :
    List String → List (String × String) × List LogEvent
  | [] => (acc, logs)
  | h :: rest =>
    match splitFirstColon h with
    | some kv => parseHeadersAux (dictInsert acc (trimStr kv.1) (trimStr kv.2)) logs rest
    | none => parseHeadersAux acc (logs ++ [.invalidHeader h]) rest

/-- Translation of `parse_headers` (main.py lines 171-180). -/
def parse_headers (header_list : List String) :
    List (String × String) × List LogEvent :=
  parseHeadersAux [] [] header_list

/-- The two verdict lines printed by `main` (lines 206-209). -/
def enabledLine : String := "GraphQL introspection is ENABLED."

/-- The DISABLED verdict line. -/
def disabledLine : String := "GraphQL introspection is DISABLED or restricted."

/-- The URL normalisation of `main` (lines 200-202):  prepend `https://`
(with a warning) unless the URL starts with `http://` or `https://`. -/
def normalizeUrl (url : String) : String × List LogEvent :=
  if startsWithStr url "http://" ∨ startsWithStr url "https://" then (url, [])
  else ("https://" ++ url, [.schemeWarning])

/-- The parsed command-line arguments, Python's `argparse.Namespace` as
built from the declarations of main.py lines 104-107:  the positional
`url`, the repeated `--header` values, the `--post` flag. -/
structure Namespace where
  url : String
  header : List String
  post : Bool
  deriving DecidableEq, Repr

/-- Translation of `setup_argparse` (main.py lines 99-108).  Despite its
name and docstring it does not return the parser:  line 108 is
`return parser.parse_args()`, so the caller receives the parsed
`Namespace`.  Argument parsing itself is `argparse` library code, so the
embedding takes the parsed result as input and passes it through. -/
def setup_argparse (argv : Namespace) : Namespace := argv

/-- The observable outcome of one run of `main`:  an uncaught Python
exception if one escapes `main` (named by its class; the interpreter then
terminates without printing a verdict), the argument of an explicit
`sys.exit` call if reached, the lines printed to standard output, the
requests issued and the log emitted. -/
structure MainRun where
  uncaughtExn : Option String
  exitCode : Option Nat
  printed : List String
  requests : List HttpRequest
  logs : List LogEvent
  deriving DecidableEq, Repr

/-- The rest of `main` after line 188 (main.py lines 190-209), run on a
parsed `args` Namespace:  read the arguments, parse the headers, exit 1 on
an empty URL, normalise the URL, probe, print one verdict line.  In the
shipped program this code is unreachable (see `mainRun`); it is translated
separately because it is the behaviour the spec describes. -/
def mainBody (args : Namespace) (net : Transport) : MainRun :=
  let hp := parse_headers args.header
  if args.url = "" then
    { uncaughtExn := none, exitCode := some 1, printed := [], requests := [],
      logs := hp.2 ++ [.urlRequired] }
  else
    let nu := normalizeUrl args.url
    let run := check_introspection nu.1 hp.1 args.post net
    { uncaughtExn := none, exitCode := none,
      printed := [if run.verdict then enabledLine else disabledLine],
      requests := run.requests,
      logs := hp.2 ++ nu.2 ++ [.checking nu.1] ++ run.logs }

/-- Translation of `main` (main.py lines 183-209) as shipped.  Line 187
binds `parser` to the value of `setup_argparse()`, which by line 108 is
already the parsed `Namespace`, not a parser; line 188 then evaluates
`parser.parse_args()` on that `Namespace`, which has no `parse_args`
attribute, so every invocation raises an uncaught `AttributeError` there —
before the empty-URL check, the URL normalisation, the probe and the
verdict print.  `mainBody` is dead code; nothing is printed, no request is
issued, no log line of `main` is emitted. -/
def mainRun (_argv : Namespace) (_net : Transport) : MainRun :=
  { uncaughtExn := some "AttributeError", exitCode := none, printed := [],
    requests := [], logs := [] }

/-- Verdict on a parsed body as worded by the spec:  true exactly when the
parsed structure is an object with a top-level field `data` whose value in
turn has a field `__schema`.  Written from the spec's words, to be compared
with the behaviour of the code. -/
def specIntrospectionVerdict (data : Json) : Bool :=
  match data with
  | .obj fields =>
    match objLookup fields "data" with
    | some (.obj inner) => inner.any (fun p => p.1 = "__schema")
    | _ => false
  | _ => false

/-- Verdict on a parsed body under Python's membership semantics, written
out by cases:  the top level must be an object with key `data`; `__schema`
is then looked for as an object key, an array element, or a substring,
depending on the shape of the `data` value; every type-error case is
`false` (the `TypeError` is caught by the blanket `except`). -/
def pyMemberVerdict (data : Json) : Bool :=
  match data with
  | .obj fields =>
    match objLookup fields "data" with
    | some (.obj inner) => inner.any (fun p => p.1 = "__schema")
    | some (.arr elems) => elems.any (fun e => jsonEqStr e "__schema")
    | some (.str s) => strContains s "__schema"
    | _ => false
  | _ => false

/-- Last element of a list, if any (the binding that survives repeated
Python dict assignment). -/
def lastOpt : List α → Option α
  | [] => none
  | [a] => some a
  | _ :: b :: rest => lastOpt (b :: rest)

/-- The trimmed value a single `-H` argument contributes for the trimmed key
`k`, if any. -/
def pickHeader (k : String) (h : String) : Option String :=
  match splitFirstColon h with
  | some kv => if trimStr kv.1 = k then some (trimStr kv.2) else none
  | none => none

/-! ### Helper lemmas about the embedding -/

theorem objLookup_isSome (fields : List (String × Json)) (k : String) :
    (objLookup fields k).isSome = fields.any (fun p => p.1 = k) := by
  induction fields with
  | nil => rfl
  | cons p rest ih =>
    simp only [objLookup, List.any_cons]
    cases h : objLookup rest k with
    | some v =>
      rw [h] at ih
      simp only [Option.isSome_some, Bool.true_eq] at ih
      simp [← ih]
    | none =>
      rw [h] at ih
      simp only [Option.isSome_none, Bool.false_eq] at ih
      by_cases hp : p.1 = k <;> simp [hp, ← ih]

theorem check_post_error (url : String) (headers : List (String × String))
    (p : Bool) (net : Transport) (e : TransportError)
    (h : net.postResult = .error e) :
    check_introspection url headers p net =
      { verdict := false, requests := [mkPost url headers], logs := [e.toLog] } := by
  simp [check_introspection, obtainResponse, h]

theorem check_forced (url : String) (headers : List (String × String))
    (net : Transport) (r : Response) (h : net.postResult = .ok r) :
    check_introspection url headers true net =
      finishRun r [mkPost url headers] [] := by
  simp [check_introspection, obtainResponse, h]

theorem check_nohtml (url : String) (headers : List (String × String))
    (net : Transport) (r : Response) (h : net.postResult = .ok r)
    (hh : is_html r = false) :
    check_introspection url headers false net =
      finishRun r [mkPost url headers] [] := by
  simp [check_introspection, obtainResponse, h, hh]

theorem check_html_get_ok (url : String) (headers : List (String × String))
    (net : Transport) (r0 r1 : Response) (h : net.postResult = .ok r0)
    (hh : is_html r0 = true) (hg : net.getResult = .ok r1) :
    check_introspection url headers false net =
      finishRun r1 [mkPost url headers, mkGet url headers] [.htmlFallback] := by
  simp [check_introspection, obtainResponse, h, hh, hg]

theorem check_html_get_error (url : String) (headers : List (String × String))
    (net : Transport) (r0 : Response) (e : TransportError)
    (h : net.postResult = .ok r0) (hh : is_html r0 = true)
    (hg : net.getResult = .error e) :
    check_introspection url headers false net =
      { verdict := false, requests := [mkPost url headers, mkGet url headers],
        logs := [.htmlFallback, e.toLog] } := by
  simp [check_introspection, obtainResponse, h, hh, hg]

theorem classify_bad_status (r : Response) (h4 : 400 ≤ r.status)
    (h6 : r.status < 600) :
    classifyResponse r = .error .requestException := by
  simp [classifyResponse, raise_for_status, h4, h6]

theorem classify_json_none (r : Response)
    (hs : ¬ (400 ≤ r.status ∧ r.status < 600))
    (hct : strContains (lowerStr (r.contentType.getD "")) "application/json" = true)
    (hb : r.jsonBody = none) :
    classifyResponse r = .error .jsonDecodeError := by
  simp [classifyResponse, raise_for_status, hs, hct, hb]

theorem classify_json_some (r : Response) (data : Json)
    (hs : ¬ (400 ≤ r.status ∧ r.status < 600))
    (hct : strContains (lowerStr (r.contentType.getD "")) "application/json" = true)
    (hb : r.jsonBody = some data) :
    classifyResponse r =
      (match introspectionTest data with
       | .error k => .error k
       | .ok true => .ok (true, .introspectionEnabled)
       | .ok false => .ok (false, .introspectionNotEnabled)) := by
  simp [classifyResponse, raise_for_status, hs, hct, hb]

theorem classify_not_json (r : Response)
    (hs : ¬ (400 ≤ r.status ∧ r.status < 600))
    (hct : strContains (lowerStr (r.contentType.getD "")) "application/json" = false) :
    classifyResponse r =
      .ok (false, .unexpectedContentType (lowerStr (r.contentType.getD ""))) := by
  simp [classifyResponse, raise_for_status, hs, hct]

theorem introspectionTest_verdict (data : Json) :
    (match introspectionTest data with
     | .ok b => b
     | .error _ => false) = pyMemberVerdict data := by
  cases data with
  | null => rfl
  | bool b => rfl
  | num n => rfl
  | str s =>
    simp only [introspectionTest, pyIn, pyIndex, pyMemberVerdict]
    cases strContains s "data" <;> simp
  | arr elems =>
    simp only [introspectionTest, pyIn, pyIndex, pyMemberVerdict]
    cases elems.any (fun e => jsonEqStr e "data") <;> simp
  | obj fields =>
    have hiso := objLookup_isSome fields "data"
    simp only [introspectionTest, pyIn, pyIndex, pyMemberVerdict]
    cases h : objLookup fields "data" with
    | none =>
      rw [h] at hiso
      simp only [Option.isSome_none, Bool.false_eq] at hiso
      rw [hiso]
    | some v =>
      rw [h] at hiso
      simp only [Option.isSome_some, Bool.true_eq] at hiso
      rw [hiso]
      cases v <;> simp [pyIn]

theorem finishRun_requests (r : Response) (reqs : List HttpRequest)
    (logs0 : List LogEvent) : (finishRun r reqs logs0).requests = reqs := by
  unfold finishRun
  cases classifyResponse r <;> rfl

theorem finishRun_verdict_congr (r : Response) (reqs reqs' : List HttpRequest)
    (logs0 logs0' : List LogEvent) :
    (finishRun r reqs logs0).verdict = (finishRun r reqs' logs0').verdict := by
  unfold finishRun
  cases classifyResponse r <;> rfl

theorem finishRun_bad_status (r : Response) (reqs : List HttpRequest)
    (logs0 : List LogEvent) (h4 : 400 ≤ r.status) (h6 : r.status < 600) :
    finishRun r reqs logs0 =
      { verdict := false, requests := reqs, logs := logs0 ++ [.requestFailed] } := by
  simp [finishRun, classify_bad_status r h4 h6, handleExn]

theorem finishRun_json_none (r : Response) (reqs : List HttpRequest)
    (logs0 : List LogEvent) (hs : ¬ (400 ≤ r.status ∧ r.status < 600))
    (hct : strContains (lowerStr (r.contentType.getD "")) "application/json" = true)
    (hb : r.jsonBody = none) :
    finishRun r reqs logs0 =
      { verdict := false, requests := reqs,
        logs := logs0 ++ [.jsonDecodeFailed r.text] } := by
  simp [finishRun, classify_json_none r hs hct hb, handleExn]

theorem finishRun_json_some_verdict (r : Response) (data : Json)
    (reqs : List HttpRequest) (logs0 : List LogEvent)
    (hs : ¬ (400 ≤ r.status ∧ r.status < 600))
    (hct : strContains (lowerStr (r.contentType.getD "")) "application/json" = true)
    (hb : r.jsonBody = some data) :
    (finishRun r reqs logs0).verdict = pyMemberVerdict data := by
  rw [← introspectionTest_verdict data]
  simp only [finishRun, classify_json_some r data hs hct hb]
  cases hi : introspectionTest data with
  | ok b => cases b <;> simp
  | error k => cases k <;> simp [handleExn]

theorem finishRun_not_json (r : Response) (reqs : List HttpRequest)
    (logs0 : List LogEvent) (hs : ¬ (400 ≤ r.status ∧ r.status < 600))
    (hct : strContains (lowerStr (r.contentType.getD "")) "application/json" = false) :
    finishRun r reqs logs0 =
      { verdict := false, requests := reqs,
        logs := logs0 ++ [.unexpectedContentType (lowerStr (r.contentType.getD ""))] } := by
  simp [finishRun, classify_not_json r hs hct]

theorem classify_ok_shape (r : Response) (be : Bool × LogEvent)
    (h : classifyResponse r = .ok be) :
    be.2 = LogEvent.introspectionEnabled ∨ be.2 = LogEvent.introspectionNotEnabled ∨
    be.2 = LogEvent.unexpectedContentType (lowerStr (r.contentType.getD "")) := by
  by_cases hs : 400 ≤ r.status ∧ r.status < 600
  · rw [classify_bad_status r hs.1 hs.2] at h
    exact absurd h (by simp)
  · by_cases hct : strContains (lowerStr (r.contentType.getD "")) "application/json" = true
    · cases hb : r.jsonBody with
      | none =>
        rw [classify_json_none r hs hct hb] at h
        exact absurd h (by simp)
      | some data =>
        rw [classify_json_some r data hs hct hb] at h
        cases hi : introspectionTest data with
        | error k =>
          rw [hi] at h
          exact absurd h (by simp)
        | ok b =>
          rw [hi] at h
          cases b <;> (cases h; simp)
    · rw [classify_not_json r hs (by simpa using hct)] at h
      cases h
      simp

theorem finishRun_logs_shape (r : Response) (reqs : List HttpRequest)
    (logs0 : List LogEvent) :
    ∃ ev, (finishRun r reqs logs0).logs = logs0 ++ [ev] ∧
      ev ≠ LogEvent.schemeWarning := by
  unfold finishRun
  cases h : classifyResponse r with
  | ok be =>
    refine ⟨be.2, rfl, ?_⟩
    rcases classify_ok_shape r be h with h2 | h2 | h2 <;> simp [h2]
  | error k =>
    cases k <;> exact ⟨_, rfl, by simp [handleExn]⟩

theorem lastOpt_cons_isSome (b : α) (m : List α) :
    (lastOpt (b :: m)).isSome = true := by
  induction m generalizing b with
  | nil => rfl
  | cons c m' ih => exact ih c

theorem lastOpt_cons (a : α) (l : List α) :
    lastOpt (a :: l) =
      match lastOpt l with
      | none => some a
      | some v => some v := by
  cases l with
  | nil => rfl
  | cons b m =>
    cases hm : lastOpt (b :: m) with
    | none =>
      have := lastOpt_cons_isSome b m
      rw [hm] at this
      simp at this
    | some v => simp [lastOpt, hm]

theorem parseHeadersAux_fst_logs (l : List String) :
    ∀ (acc : List (String × String)) (logs logs' : List LogEvent),
      (parseHeadersAux acc logs l).1 = (parseHeadersAux acc logs' l).1 := by
  induction l with
  | nil => intro acc logs logs'; rfl
  | cons h rest ih =>
    intro acc logs logs'
    cases hs : splitFirstColon h with
    | some kv =>
      simp only [parseHeadersAux, hs]
      exact ih _ _ _
    | none =>
      simp only [parseHeadersAux, hs]
      exact ih _ _ _

theorem parseHeadersAux_logs (l : List String) :
    ∀ (acc : List (String × String)) (logs : List LogEvent),
      (parseHeadersAux acc logs l).2 =
        logs ++ (l.filter (fun h => (splitFirstColon h).isNone)).map
          (fun h => LogEvent.invalidHeader h) := by
  induction l with
  | nil => intro acc logs; simp [parseHeadersAux]
  | cons h rest ih =>
    intro acc logs
    cases hs : splitFirstColon h with
    | some kv =>
      simp only [parseHeadersAux, hs]
      rw [ih]
      simp [List.filter_cons, hs]
    | none =>
      simp only [parseHeadersAux, hs]
      rw [ih]
      simp [List.filter_cons, hs]

theorem parseHeadersAux_fst_filter (l : List String) :
    ∀ (acc : List (String × String)) (logs : List LogEvent),
      (parseHeadersAux acc logs l).1 =
        (parseHeadersAux acc logs
          (l.filter (fun h => (splitFirstColon h).isSome))).1 := by
  induction l with
  | nil => intro acc logs; rfl
  | cons h rest ih =>
    intro acc logs
    cases hs : splitFirstColon h with
    | some kv =>
      simp only [List.filter_cons, hs, Option.isSome_some, if_pos]
      simp only [parseHeadersAux, hs]
      exact ih _ _
    | none =>
      simp only [List.filter_cons, hs, Option.isSome_none]
      simp only [parseHeadersAux, hs]
      rw [ih]
      exact parseHeadersAux_fst_logs _ _ _ _

theorem mem_dictInsert (d : List (String × String)) (k v : String)
    (p : String × String) (h : p ∈ dictInsert d k v) : p ∈ d ∨ p = (k, v) := by
  unfold dictInsert at h
  by_cases ha : d.any (fun q => q.1 = k) = true
  · rw [if_pos ha] at h
    rcases List.mem_map.mp h with ⟨q, hq, hqp⟩
    by_cases hqk : q.1 = k
    · right
      rw [if_pos hqk] at hqp
      exact hqp.symm
    · left
      rw [if_neg hqk] at hqp
      exact hqp ▸ hq
  · rw [if_neg ha] at h
    rcases List.mem_append.mp h with h | h
    · exact Or.inl h
    · exact Or.inr (by simpa using h)

theorem dictInsert_keeps (d : List (String × String)) (k v k' : String)
    (h : d.any (fun p => p.1 = k') = true) :
    (dictInsert d k v).any (fun p => p.1 = k') = true := by
  unfold dictInsert
  by_cases ha : d.any (fun q => q.1 = k) = true
  · rw [if_pos ha]
    rcases List.any_eq_true.mp h with ⟨q, hq, hqk'⟩
    have hmem := List.mem_map_of_mem
      (fun p : String × String => if p.1 = k then (k, v) else p) hq
    apply List.any_eq_true.mpr
    refine ⟨_, hmem, ?_⟩
    simp only [decide_eq_true_eq] at hqk' ⊢
    by_cases hqk : q.1 = k
    · rw [if_pos hqk]
      exact hqk.symm.trans hqk'
    · rw [if_neg hqk]
      exact hqk'
  · rw [if_neg ha, List.any_append]
    rw [h]
    rfl

theorem dictInsert_self_key (d : List (String × String)) (k v : String) :
    (dictInsert d k v).any (fun p => p.1 = k) = true := by
  unfold dictInsert
  by_cases ha : d.any (fun q => q.1 = k) = true
  · rw [if_pos ha]
    rcases List.any_eq_true.mp ha with ⟨q, hq, hqk⟩
    have hmem := List.mem_map_of_mem
      (fun p : String × String => if p.1 = k then (k, v) else p) hq
    apply List.any_eq_true.mpr
    refine ⟨_, hmem, ?_⟩
    simp only [decide_eq_true_eq] at hqk ⊢
    rw [if_pos hqk]
  · rw [if_neg ha, List.any_append]
    simp

theorem parseHeadersAux_keeps_key (l : List String) :
    ∀ (acc : List (String × String)) (logs : List LogEvent) (k' : String),
      acc.any (fun p => p.1 = k') = true →
      (parseHeadersAux acc logs l).1.any (fun p => p.1 = k') = true := by
  induction l with
  | nil => intro acc logs k' h; exact h
  | cons h rest ih =>
    intro acc logs k' hk
    cases hs : splitFirstColon h with
    | some kv =>
      simp only [parseHeadersAux, hs]
      exact ih _ _ _ (dictInsert_keeps _ _ _ _ hk)
    | none =>
      simp only [parseHeadersAux, hs]
      exact ih _ _ _ hk

theorem parseHeadersAux_mem (l : List String) :
    ∀ (acc : List (String × String)) (logs : List LogEvent)
      (p : String × String), p ∈ (parseHeadersAux acc logs l).1 →
      p ∈ acc ∨ ∃ h ∈ l, ∃ kv, splitFirstColon h = some kv ∧
        p = (trimStr kv.1, trimStr kv.2) := by
  induction l with
  | nil => intro acc logs p h; exact Or.inl h
  | cons h rest ih =>
    intro acc logs p hp
    cases hs : splitFirstColon h with
    | some kv =>
      simp only [parseHeadersAux, hs] at hp
      rcases ih _ _ _ hp with hmem | ⟨h2, hh2, kv2, hs2, hp2⟩
      · rcases mem_dictInsert _ _ _ _ hmem with hmem2 | hpkv
        · exact Or.inl hmem2
        · exact Or.inr ⟨h, List.mem_cons_self _ _, kv, hs, hpkv⟩
      · exact Or.inr ⟨h2, List.mem_cons_of_mem _ hh2, kv2, hs2, hp2⟩
    | none =>
      simp only [parseHeadersAux, hs] at hp
      rcases ih _ _ _ hp with hmem | ⟨h2, hh2, kv2, hs2, hp2⟩
      · exact Or.inl hmem
      · exact Or.inr ⟨h2, List.mem_cons_of_mem _ hh2, kv2, hs2, hp2⟩

theorem assocLookup_dictInsert_self (d : List (String × String)) (k v : String) :
    assocLookup (dictInsert d k v) k = some v := by
  unfold dictInsert assocLookup
  by_cases ha : d.any (fun q => q.1 = k) = true
  · rw [if_pos ha, List.find?_map]
    have hpf : ((fun p : String × String => decide (p.1 = k)) ∘
        (fun p : String × String => if p.1 = k then (k, v) else p)) =
        (fun p : String × String => decide (p.1 = k)) := by
      funext q
      by_cases hq : q.1 = k <;> simp [hq]
    rw [hpf]
    have hsome : ∃ b, d.find? (fun p => decide (p.1 = k)) = some b := by
      rcases List.any_eq_true.mp ha with ⟨q, hq, hqk⟩
      have hfs : (d.find? (fun p => decide (p.1 = k))).isSome := by
        apply List.find?_isSome.mpr
        exact ⟨q, hq, hqk⟩
      rwa [Option.isSome_iff_exists] at hfs
    rcases hsome with ⟨b, hb⟩
    have hbk : b.1 = k := by
      have := List.find?_some hb
      simpa using this
    rw [hb]
    simp [hbk]
  · rw [if_neg ha, List.find?_append]
    have h1 : d.find? (fun p => decide (p.1 = k)) = none := by
      rw [List.find?_eq_none]
      intro x hx hpx
      exact ha (List.any_eq_true.mpr ⟨x, hx, hpx⟩)
    rw [h1]
    simp

theorem assocLookup_dictInsert_ne (d : List (String × String)) (k v k' : String)
    (hk : ¬ (k = k')) : assocLookup (dictInsert d k v) k' = assocLookup d k' := by
  unfold dictInsert assocLookup
  by_cases ha : d.any (fun q => q.1 = k) = true
  · rw [if_pos ha, List.find?_map]
    have hpf : ((fun p : String × String => decide (p.1 = k')) ∘
        (fun p : String × String => if p.1 = k then (k, v) else p)) =
        (fun p : String × String => decide (p.1 = k')) := by
      funext q
      by_cases hq : q.1 = k <;> simp [hq, hk]
    rw [hpf]
    cases hb : d.find? (fun p => decide (p.1 = k')) with
    | none => simp
    | some b =>
      have hbk' : b.1 = k' := by
        have := List.find?_some hb
        simpa using this
      have hbk : ¬ (b.1 = k) := fun hcon => hk (hcon.symm.trans hbk')
      simp [hbk]
  · rw [if_neg ha, List.find?_append]
    have h1 : [(k, v)].find? (fun p => decide (p.1 = k')) = none := by
      simp [hk]
    rw [h1]
    cases d.find? (fun p => decide (p.1 = k')) <;> rfl

theorem parseHeadersAux_lookup (l : List String) :
    ∀ (acc : List (String × String)) (logs : List LogEvent) (k : String),
      assocLookup (parseHeadersAux acc logs l).1 k =
        (match lastOpt (l.filterMap (pickHeader k)) with
         | some v => some v
         | none => assocLookup acc k) := by
  induction l with
  | nil => intro acc logs k; rfl
  | cons h rest ih =>
    intro acc logs k
    cases hs : splitFirstColon h with
    | none =>
      simp only [parseHeadersAux, hs]
      rw [ih]
      have hp : pickHeader k h = none := by simp [pickHeader, hs]
      rw [List.filterMap_cons_none]
      exact hp
    | some kv =>
      simp only [parseHeadersAux, hs]
      rw [ih]
      by_cases hk : trimStr kv.1 = k
      · have hp : pickHeader k h = some (trimStr kv.2) := by
          simp [pickHeader, hs, hk]
        rw [List.filterMap_cons_some hp, lastOpt_cons, hk]
        cases hl : lastOpt (rest.filterMap (pickHeader k)) with
        | some v => simp
        | none => simp [assocLookup_dictInsert_self]
      · have hp : pickHeader k h = none := by simp [pickHeader, hs, hk]
        rw [List.filterMap_cons_none hp]
        cases hl : lastOpt (rest.filterMap (pickHeader k)) with
        | some v => simp
        | none => simp [assocLookup_dictInsert_ne _ _ _ _ hk]

theorem parseHeadersAux_key_present (l : List String) :
    ∀ (acc : List (String × String)) (logs : List LogEvent) (h : String)
      (kv : String × String), h ∈ l → splitFirstColon h = some kv →
      (parseHeadersAux acc logs l).1.any (fun p => p.1 = trimStr kv.1) = true := by
  induction l with
  | nil =>
    intro _ _ _ _ hmem _
    exact absurd hmem (List.not_mem_nil _)
  | cons h0 rest ih =>
    intro acc logs h kv hmem hs
    rcases List.mem_cons.mp hmem with heq | hmem2
    · subst heq
      simp only [parseHeadersAux, hs]
      exact parseHeadersAux_keeps_key rest _ _ _ (dictInsert_self_key acc _ _)
    · cases hs0 : splitFirstColon h0 with
      | some kv0 =>
        simp only [parseHeadersAux, hs0]
        exact ih _ _ _ _ hmem2 hs
      | none =>
        simp only [parseHeadersAux, hs0]
        exact ih _ _ _ _ hmem2 hs

theorem check_requests_shape (url : String) (headers : List (String × String))
    (p : Bool) (net : Transport) :
    (check_introspection url headers p net).requests = [mkPost url headers] ∨
    (check_introspection url headers p net).requests =
      [mkPost url headers, mkGet url headers] := by
  cases hp : net.postResult with
  | error e =>
    left
    rw [check_post_error url headers p net e hp]
  | ok r =>
    cases p with
    | true =>
      left
      rw [check_forced url headers net r hp, finishRun_requests]
    | false =>
      cases hh : is_html r with
      | false =>
        left
        rw [check_nohtml url headers net r hp hh, finishRun_requests]
      | true =>
        cases hg : net.getResult with
        | error e =>
          right
          rw [check_html_get_error url headers net r e hp hh hg]
        | ok r1 =>
          right
          rw [check_html_get_ok url headers net r r1 hp hh hg, finishRun_requests]

theorem check_logs_no_scheme (url : String) (headers : List (String × String))
    (p : Bool) (net : Transport) :
    LogEvent.schemeWarning ∉ (check_introspection url headers p net).logs := by
  cases hp : net.postResult with
  | error e =>
    rw [check_post_error url headers p net e hp]
    cases e <;> simp [TransportError.toLog]
  | ok r =>
    cases p with
    | true =>
      rw [check_forced url headers net r hp]
      rcases finishRun_logs_shape r [mkPost url headers] [] with ⟨ev, hl, hne⟩
      rw [hl]
      simp [Ne.symm hne]
    | false =>
      cases hh : is_html r with
      | false =>
        rw [check_nohtml url headers net r hp hh]
        rcases finishRun_logs_shape r [mkPost url headers] [] with ⟨ev, hl, hne⟩
        rw [hl]
        simp [Ne.symm hne]
      | true =>
        cases hg : net.getResult with
        | error e =>
          rw [check_html_get_error url headers net r e hp hh hg]
          cases e <;> simp [TransportError.toLog]
        | ok r1 =>
          rw [check_html_get_ok url headers net r r1 hp hh hg]
          rcases finishRun_logs_shape r1 [mkPost url headers, mkGet url headers]
            [.htmlFallback] with ⟨ev, hl, hne⟩
          rw [hl]
          simp [Ne.symm hne]

/-! ### Claims -/

/-- C4:  For every URL, header set, and server response, if the forcePost
flag is set then `check_introspection` issues exactly one HTTP POST (the
JSON-payload request with the caller's headers and the 10-second timeout)
and never issues a fallback GET, regardless of the response's content
type. -/
theorem spec_C4 (url : String) (headers : List (String × String))
    (net : Transport) :
    (check_introspection url headers true net).requests = [mkPost url headers] ∧
    (mkPost url headers).method = Method.POST := by
  constructor
  · cases hp : net.postResult with
    | error e => rw [check_post_error url headers true net e hp]
    | ok r => rw [check_forced url headers net r hp, finishRun_requests]
  · rfl

/-- C3:  When forcePost is false and the initial POST response's
Content-Type contains `text/html`, exactly one fallback GET is issued to
the same URL with the query passed as URL query parameters (same headers,
same 10-second timeout), and the GET's response fully replaces the POST
response:  the verdict equals what a forced-POST run fed the GET's outcome
would produce. -/
theorem spec_C3 (url : String) (headers : List (String × String))
    (net : Transport) (r : Response)
    (hpost : net.postResult = .ok r) (hhtml : is_html r = true) :
    (check_introspection url headers false net).requests =
      [mkPost url headers,
       { method := Method.GET, url := url, headers := headers,
         jsonPayload := none, params := some payload, timeout := 10 }] ∧
    (check_introspection url headers false net).verdict =
      (check_introspection url headers true
        { postResult := net.getResult, getResult := net.getResult }).verdict := by
  cases hg : net.getResult with
  | error e =>
    rw [check_html_get_error url headers net r e hpost hhtml hg,
      check_post_error url headers true _ e rfl]
    exact ⟨rfl, rfl⟩
  | ok r1 =>
    rw [check_html_get_ok url headers net r r1 hpost hhtml hg,
      check_forced url headers _ r1 rfl]
    constructor
    · rw [finishRun_requests]
      rfl
    · exact finishRun_verdict_congr r1 _ _ _ _

/-- C3 witness:  with an HTML POST response and a failing GET, exactly the
POST and the fallback GET are issued. -/
theorem spec_C3_witness :
    (check_introspection "https://e.com/g" [("A", "b")] false
      { postResult := .ok { status := 200, contentType := some "text/html",
                            jsonBody := none, text := "" },
        getResult := .error .timeoutErr }).requests.length = 2 := by
  have h := spec_C3 "https://e.com/g" [("A", "b")]
    { postResult := .ok { status := 200, contentType := some "text/html",
                          jsonBody := none, text := "" },
      getResult := .error .timeoutErr }
    { status := 200, contentType := some "text/html", jsonBody := none, text := "" }
    rfl (by decide)
  rw [h.1]
  rfl

/-- C2 (code bug):  the prober half of the claim is true of the code —
`check_introspection` maps every transport-level failure (transport
exception on the POST or on the fallback GET, HTTP error status 400-599,
undecodable JSON body) to `false` — but the shipped `main` never prints a
verdict line:  `setup_argparse` already returns the parsed `Namespace`
(line 108) and `main` calls `parse_args()` on it again (line 188), an
unconditional uncaught `AttributeError`, so every invocation prints
nothing.  The verdict-line sentence does hold of `mainBody`, the
unreachable rest of `main` that the spec describes. -/
theorem spec_C2 (args : Namespace) (net : Transport) :
    (mainRun args net).printed = [] ∧
    (mainRun args net).uncaughtExn = some "AttributeError" ∧
    (¬ (args.url = "") →
      ((mainBody args net).printed = [enabledLine] ∨
       (mainBody args net).printed = [disabledLine]) ∧
      (mainBody args net).uncaughtExn = none) ∧
    (∀ (u : String) (h : List (String × String)) (p : Bool)
      (e : TransportError), net.postResult = .error e →
      (check_introspection u h p net).verdict = false) ∧
    (∀ (u : String) (h : List (String × String)) (r : Response)
      (e : TransportError), net.postResult = .ok r → is_html r = true →
      net.getResult = .error e →
      (check_introspection u h false net).verdict = false) ∧
    (∀ (u : String) (h : List (String × String)) (r : Response),
      net.postResult = .ok r → 400 ≤ r.status → r.status < 600 →
      (check_introspection u h true net).verdict = false) ∧
    (∀ (u : String) (h : List (String × String)) (r : Response),
      net.postResult = .ok r →
      strContains (lowerStr (r.contentType.getD "")) "application/json" = true →
      r.jsonBody = none → ¬ (400 ≤ r.status ∧ r.status < 600) →
      (check_introspection u h true net).verdict = false) := by
  refine ⟨rfl, rfl, ?_, ?_, ?_, ?_, ?_⟩
  · intro hurl
    constructor
    · cases hv : (check_introspection (normalizeUrl args.url).1
          (parse_headers args.header).1 args.post net).verdict <;>
        simp [mainBody, hurl, hv]
    · simp [mainBody, hurl]
  · intro u h p e he
    rw [check_post_error u h p net e he]
  · intro u h r e hr hh hg
    rw [check_html_get_error u h net r e hr hh hg]
  · intro u h r hr h4 h6
    rw [check_forced u h net r hr, finishRun_bad_status r _ _ h4 h6]
  · intro u h r hr hct hb hs
    rw [check_forced u h net r hr, finishRun_json_none r _ _ hs hct hb]

/-- C2 witness:  on a concrete invocation the shipped `main` prints nothing
(the `AttributeError` escapes), while the prober maps a connection error on
the POST to verdict `false`. -/
theorem spec_C2_witness :
    (mainRun { url := "https://example.com/graphql", header := [], post := false }
      { postResult := .error .connError, getResult := .error .connError }).printed
      = [] ∧
    (check_introspection "https://example.com/graphql" [] false
      { postResult := .error .connError, getResult := .error .connError }).verdict
      = false := by
  have h := spec_C2
    { url := "https://example.com/graphql", header := [], post := false }
    { postResult := .error .connError, getResult := .error .connError }
  exact ⟨h.1, h.2.2.2.1 "https://example.com/graphql" [] false .connError rfl⟩

/-- C5 counterexample:  a response with HTTP status 600 — which is ≥ 400,
but outside the 400-599 range for which the `requests` library's
`raise_for_status` raises `HTTPError` — carrying a JSON introspection body
makes `check_introspection` return `true`, refuting the claim that every
status ≥ 400 yields `false`. -/
theorem spec_C5_counterexample :
    (check_introspection "https://example.com/graphql" [] true
      { postResult := .ok
          { status := 600, contentType := some "application/json",
            jsonBody := some (.obj [("data", .obj [("__schema", .obj [])])]),
            text := "" },
        getResult := .error .connError }).verdict = true := by
  rfl

/-- C5 amended:  for every final response whose HTTP status code lies in
400-599 (the exact range for which `raise_for_status` raises `HTTPError`),
`check_introspection` logs the request failure and returns `false`, with no
exception escaping:  this holds on the forced-POST path, on the plain POST
path, and on the fallback-GET path. -/
theorem spec_C5_amended (url : String) (headers : List (String × String))
    (net : Transport) (r : Response) (h4 : 400 ≤ r.status)
    (h6 : r.status < 600) :
    (net.postResult = .ok r →
      check_introspection url headers true net =
        { verdict := false, requests := [mkPost url headers],
          logs := [.requestFailed] }) ∧
    (net.postResult = .ok r → is_html r = false →
      check_introspection url headers false net =
        { verdict := false, requests := [mkPost url headers],
          logs := [.requestFailed] }) ∧
    (∀ r0, net.postResult = .ok r0 → is_html r0 = true →
      net.getResult = .ok r →
      check_introspection url headers false net =
        { verdict := false, requests := [mkPost url headers, mkGet url headers],
          logs := [.htmlFallback, .requestFailed] }) := by
  refine ⟨?_, ?_, ?_⟩
  · intro hp
    rw [check_forced url headers net r hp, finishRun_bad_status r _ _ h4 h6]
    rfl
  · intro hp hh
    rw [check_nohtml url headers net r hp hh, finishRun_bad_status r _ _ h4 h6]
    rfl
  · intro r0 hp hh hg
    rw [check_html_get_ok url headers net r0 r hp hh hg,
      finishRun_bad_status r _ _ h4 h6]
    rfl

/-- C5 witness:  a 404 response yields verdict `false` with the request
failure logged. -/
theorem spec_C5_witness :
    check_introspection "https://x" [] true
      { postResult := .ok { status := 404, contentType := some "text/plain",
                            jsonBody := none, text := "nf" },
        getResult := .error .connError } =
      { verdict := false, requests := [mkPost "https://x" []],
        logs := [.requestFailed] } := by
  have h := spec_C5_amended "https://x" []
    { postResult := .ok { status := 404, contentType := some "text/plain",
                          jsonBody := none, text := "nf" },
      getResult := .error .connError }
    { status := 404, contentType := some "text/plain", jsonBody := none,
      text := "nf" } (by decide) (by decide)
  exact h.1 rfl

/-- C6:  for every final response whose Content-Type contains
`application/json` but whose body fails to parse as JSON, the error is
logged together with the raw response text and `check_introspection`
returns `false`, on each of the three paths to a final response. -/
theorem spec_C6 (url : String) (headers : List (String × String))
    (net : Transport) (r : Response)
    (hs : ¬ (400 ≤ r.status ∧ r.status < 600))
    (hct : strContains (lowerStr (r.contentType.getD "")) "application/json" = true)
    (hb : r.jsonBody = none) :
    (net.postResult = .ok r →
      check_introspection url headers true net =
        { verdict := false, requests := [mkPost url headers],
          logs := [.jsonDecodeFailed r.text] }) ∧
    (net.postResult = .ok r → is_html r = false →
      check_introspection url headers false net =
        { verdict := false, requests := [mkPost url headers],
          logs := [.jsonDecodeFailed r.text] }) ∧
    (∀ r0, net.postResult = .ok r0 → is_html r0 = true →
      net.getResult = .ok r →
      check_introspection url headers false net =
        { verdict := false, requests := [mkPost url headers, mkGet url headers],
          logs := [.htmlFallback, .jsonDecodeFailed r.text] }) := by
  refine ⟨?_, ?_, ?_⟩
  · intro hp
    rw [check_forced url headers net r hp, finishRun_json_none r _ _ hs hct hb]
    rfl
  · intro hp hh
    rw [check_nohtml url headers net r hp hh, finishRun_json_none r _ _ hs hct hb]
    rfl
  · intro r0 hp hh hg
    rw [check_html_get_ok url headers net r0 r hp hh hg,
      finishRun_json_none r _ _ hs hct hb]
    rfl

/-- C6 witness:  a 200 response claiming `application/json` whose body does
not parse yields `false` and logs the raw text. -/
theorem spec_C6_witness :
    check_introspection "https://x" [] true
      { postResult := .ok { status := 200, contentType := some "application/json",
                            jsonBody := none, text := "not json" },
        getResult := .error .connError } =
      { verdict := false, requests := [mkPost "https://x" []],
        logs := [.jsonDecodeFailed "not json"] } := by
  have h := spec_C6 "https://x" []
    { postResult := .ok { status := 200, contentType := some "application/json",
                          jsonBody := none, text := "not json" },
      getResult := .error .connError }
    { status := 200, contentType := some "application/json", jsonBody := none,
      text := "not json" } (by decide) (by decide) rfl
  exact h.1 rfl

/-- C1 counterexample:  for the JSON response body
\x7b"data": ["__schema"]\x7d (Content-Type `application/json`, status 200)
the code returns `true`, although under the claim's reading the body has no
nested field `__schema` inside a field `data` (the value of `data` is an
array, not an object), so the claimed iff fails:  Python's `in` also
accepts array elements and substrings. -/
theorem spec_C1_counterexample :
    (check_introspection "https://example.com/graphql" [] true
      { postResult := .ok
          { status := 200, contentType := some "application/json",
            jsonBody := some (.obj [("data", .arr [.str "__schema"])]),
            text := "" },
        getResult := .error .connError }).verdict = true ∧
    specIntrospectionVerdict (.obj [("data", .arr [.str "__schema"])]) = false := by
  exact ⟨rfl, rfl⟩

/-- C1 amended:  for every response whose Content-Type contains
`application/json`, whose body parses, and whose status does not trigger
`raise_for_status`, the verdict equals the Python membership test
(`pyMemberVerdict`):  key `data` must exist in the top-level object and
`__schema` is then accepted as an object key, an array element, or a
substring of a string; when the value at `data` is an object this coincides
with the spec's field-based reading. -/
theorem spec_C1_amended (url : String) (headers : List (String × String))
    (net : Transport) (r : Response) (data : Json)
    (hpost : net.postResult = .ok r)
    (hs : ¬ (400 ≤ r.status ∧ r.status < 600))
    (hct : strContains (lowerStr (r.contentType.getD "")) "application/json" = true)
    (hb : r.jsonBody = some data) :
    (check_introspection url headers true net).verdict = pyMemberVerdict data ∧
    (∀ fields inner, data = Json.obj fields →
      objLookup fields "data" = some (.obj inner) →
      (check_introspection url headers true net).verdict =
        specIntrospectionVerdict data) := by
  have hv : (check_introspection url headers true net).verdict =
      pyMemberVerdict data := by
    rw [check_forced url headers net r hpost]
    exact finishRun_json_some_verdict r data _ _ hs hct hb
  refine ⟨hv, ?_⟩
  intro fields inner hdata hl
  rw [hv, hdata]
  simp [pyMemberVerdict, specIntrospectionVerdict, hl]

/-- C1 witness:  a body \x7b"data": \x7b"__schema": null\x7d\x7d yields the
membership verdict, here `true`, agreeing with the field-based reading. -/
theorem spec_C1_witness :
    (check_introspection "https://x" [] true
      { postResult := .ok
          { status := 200, contentType := some "application/json",
            jsonBody := some (.obj [("data", .obj [("__schema", .null)])]),
            text := "" },
        getResult := .error .connError }).verdict =
      pyMemberVerdict (.obj [("data", .obj [("__schema", .null)])]) := by
  have h := spec_C1_amended "https://x" []
    { postResult := .ok
        { status := 200, contentType := some "application/json",
          jsonBody := some (.obj [("data", .obj [("__schema", .null)])]),
          text := "" },
      getResult := .error .connError }
    { status := 200, contentType := some "application/json",
      jsonBody := some (.obj [("data", .obj [("__schema", .null)])]),
      text := "" }
    (.obj [("data", .obj [("__schema", .null)])])
    rfl (by decide) (by decide) rfl
  exact h.1

/-- C7 (code bug):  the normalisation of main.py lines 200-202 — as run by
`mainBody`, the rest of `main` — prefixes `https://` exactly once (with a
scheme warning) to every non-empty URL not starting with `http://` or
`https://`, and that URL is the one carried by every issued request; URLs
already starting with one of the two schemes pass through unchanged with no
scheme warning.  But the shipped `main` raises `AttributeError` at line 188
before ever reaching the normalisation, so in reality no request is issued
and no warning logged:  `mainRun` shows the empty trace. -/
theorem spec_C7 (args : Namespace) (net : Transport)
    (hurl : ¬ (args.url = "")) :
    (mainRun args net).requests = [] ∧
    (mainRun args net).logs = [] ∧
    (mainBody args net).requests ≠ [] ∧
    (¬ (startsWithStr args.url "http://" = true ∨
        startsWithStr args.url "https://" = true) →
      (mainBody args net).requests.all
        (fun q => q.url = "https://" ++ args.url) = true ∧
      LogEvent.schemeWarning ∈ (mainBody args net).logs) ∧
    ((startsWithStr args.url "http://" = true ∨
        startsWithStr args.url "https://" = true) →
      (mainBody args net).requests.all (fun q => q.url = args.url) = true ∧
      LogEvent.schemeWarning ∉ (mainBody args net).logs) := by
  have hreq : (mainBody args net).requests =
      (check_introspection (normalizeUrl args.url).1 (parse_headers args.header).1
        args.post net).requests := by
    simp [mainBody, hurl]
  have hlogs : (mainBody args net).logs =
      (parse_headers args.header).2 ++ (normalizeUrl args.url).2 ++
        [.checking (normalizeUrl args.url).1] ++
        (check_introspection (normalizeUrl args.url).1 (parse_headers args.header).1
          args.post net).logs := by
    simp [mainBody, hurl]
  have hph : (parse_headers args.header).2 =
      (args.header.filter (fun h => (splitFirstColon h).isNone)).map
        (fun h => LogEvent.invalidHeader h) := by
    simpa using parseHeadersAux_logs args.header [] []
  refine ⟨rfl, rfl, ?_, ?_, ?_⟩
  · rw [hreq]
    rcases check_requests_shape (normalizeUrl args.url).1
        (parse_headers args.header).1 args.post net with h | h <;> simp [h]
  · intro hns
    have hnu : normalizeUrl args.url = ("https://" ++ args.url, [.schemeWarning]) := by
      simp [normalizeUrl, hns]
    have hnu1 : (normalizeUrl args.url).1 = "https://" ++ args.url := by rw [hnu]
    have hnu2 : (normalizeUrl args.url).2 = [.schemeWarning] := by rw [hnu]
    constructor
    · rw [hreq, hnu1]
      rcases check_requests_shape ("https://" ++ args.url)
          (parse_headers args.header).1 args.post net with h | h <;>
        rw [h] <;> simp [mkPost, mkGet]
    · rw [hlogs, hnu2]
      simp
  · intro hst
    have hnu : normalizeUrl args.url = (args.url, []) := by
      simp [normalizeUrl, hst]
    have hnu1 : (normalizeUrl args.url).1 = args.url := by rw [hnu]
    have hnu2 : (normalizeUrl args.url).2 = ([] : List LogEvent) := by rw [hnu]
    constructor
    · rw [hreq, hnu1]
      rcases check_requests_shape args.url (parse_headers args.header).1
          args.post net with h | h <;> rw [h] <;> simp [mkPost, mkGet]
    · rw [hlogs, hnu1, hnu2, hph]
      simp [check_logs_no_scheme]

/-- C7 witness:  on `example.com/graphql` the shipped `main` issues no
request at all, while the unreachable `mainBody` would send every request
to `https://example.com/graphql` with the warning logged. -/
theorem spec_C7_witness :
    (mainRun { url := "example.com/graphql", header := [], post := false }
      { postResult := .error .connError, getResult := .error .connError }).requests
      = [] ∧
    (mainBody { url := "example.com/graphql", header := [], post := false }
      { postResult := .error .connError,
        getResult := .error .connError }).requests.all
      (fun q => q.url = "https://" ++ "example.com/graphql") = true ∧
    LogEvent.schemeWarning ∈
      (mainBody { url := "example.com/graphql", header := [], post := false }
        { postResult := .error .connError, getResult := .error .connError }).logs := by
  have h := spec_C7 { url := "example.com/graphql", header := [], post := false }
    { postResult := .error .connError, getResult := .error .connError }
    (by decide)
  have h2 := h.2.2.2.1 (by decide)
  exact ⟨h.1, h2.1, h2.2⟩

/-- C8:  `parse_headers` drops exactly the colon-free entries, logging one
error per dropped entry in order; the resulting mapping is the same as if
the malformed entries were absent; every well-formed entry's trimmed key is
present in the result; and every binding of the result comes from some
well-formed entry split on its first colon with key and value trimmed. -/
theorem spec_C8 (hl : List String) :
    (parse_headers hl).2 =
      (hl.filter (fun h => (splitFirstColon h).isNone)).map
        (fun h => LogEvent.invalidHeader h) ∧
    (parse_headers hl).1 =
      (parse_headers (hl.filter (fun h => (splitFirstColon h).isSome))).1 ∧
    (∀ h ∈ hl, ∀ kv, splitFirstColon h = some kv →
      (parse_headers hl).1.any (fun p => p.1 = trimStr kv.1) = true) ∧
    (∀ p ∈ (parse_headers hl).1, ∃ h ∈ hl, ∃ kv,
      splitFirstColon h = some kv ∧ p = (trimStr kv.1, trimStr kv.2)) := by
  refine ⟨?_, ?_, ?_, ?_⟩
  · simpa using parseHeadersAux_logs hl [] []
  · exact parseHeadersAux_fst_filter hl [] []
  · intro h hmem kv hs
    exact parseHeadersAux_key_present hl [] [] h kv hmem hs
  · intro p hp
    rcases parseHeadersAux_mem hl [] [] p hp with hmem | hrest
    · exact absurd hmem (List.not_mem_nil p)
    · exact hrest

/-- C8 witness:  a colon-free header is dropped and logged while the
well-formed header next to it is parsed and kept. -/
theorem spec_C8_witness :
    (parse_headers ["Authorization Bearer xyz", "A: b"]).2 =
      [LogEvent.invalidHeader "Authorization Bearer xyz"] ∧
    (parse_headers ["Authorization Bearer xyz", "A: b"]).1.any
      (fun p => p.1 = trimStr "A") = true := by
  have h := spec_C8 ["Authorization Bearer xyz", "A: b"]
  refine ⟨?_, ?_⟩
  · rw [h.1]
    rfl
  · exact h.2.2.1 "A: b" (by simp) ("A", " b") (by decide)

/-- C9:  the mapping built by `parse_headers` sends each key to the trimmed
value of the LAST argument-order entry whose trimmed key matches, so later
duplicates silently overwrite earlier ones. -/
theorem spec_C9 (hl : List String) (k : String) :
    assocLookup (parse_headers hl).1 k = lastOpt (hl.filterMap (pickHeader k)) := by
  unfold parse_headers
  rw [parseHeadersAux_lookup hl [] [] k]
  cases lastOpt (hl.filterMap (pickHeader k)) <;> rfl

/-- C10:  both content-type decisions look only at the lowercased
Content-Type header (missing header = empty string):  equal lowercasings
give equal decisions; `Text/HTML; charset=UTF-8` triggers the fallback GET;
`Application/JSON; charset=utf-8` takes the JSON branch (here with an
introspection body, verdict true); and a missing Content-Type always yields
verdict false. -/
theorem spec_C10 :
    (∀ (st : Nat) (jb : Option Json) (tx : String) (s t : String),
      lowerStr s = lowerStr t →
      (is_html { status := st, contentType := some s, jsonBody := jb, text := tx } =
        is_html { status := st, contentType := some t, jsonBody := jb, text := tx } ∧
       classifyResponse
          { status := st, contentType := some s, jsonBody := jb, text := tx } =
        classifyResponse
          { status := st, contentType := some t, jsonBody := jb, text := tx })) ∧
    (∀ (url : String) (headers : List (String × String)) (net : Transport)
      (r : Response), net.postResult = .ok r →
      r.contentType = some "Text/HTML; charset=UTF-8" →
      (check_introspection url headers false net).requests =
        [mkPost url headers, mkGet url headers]) ∧
    (∀ (url : String) (headers : List (String × String)) (net : Transport)
      (r : Response), net.postResult = .ok r →
      r.contentType = some "Application/JSON; charset=utf-8" → r.status = 200 →
      r.jsonBody = some (.obj [("data", .obj [("__schema", .obj [])])]) →
      (check_introspection url headers true net).verdict = true) ∧
    (∀ (url : String) (headers : List (String × String)) (p : Bool)
      (net : Transport) (r : Response), net.postResult = .ok r →
      r.contentType = none →
      (check_introspection url headers p net).verdict = false) := by
  refine ⟨?_, ?_, ?_, ?_⟩
  · intro st jb tx s t hlow
    constructor
    · simp [is_html, hlow]
    · simp [classifyResponse, raise_for_status, hlow]
  · intro url headers net r hr hct
    have hh : is_html r = true := by
      unfold is_html
      rw [hct]
      decide
    cases hg : net.getResult with
    | ok r1 =>
      rw [check_html_get_ok url headers net r r1 hr hh hg, finishRun_requests]
    | error e =>
      rw [check_html_get_error url headers net r e hr hh hg]
  · intro url headers net r hr hct hst hb
    have hct2 : strContains (lowerStr (r.contentType.getD ""))
        "application/json" = true := by
      rw [hct]
      decide
    have hs : ¬ (400 ≤ r.status ∧ r.status < 600) := by
      rw [hst]
      decide
    rw [check_forced url headers net r hr,
      finishRun_json_some_verdict r _ _ _ hs hct2 hb]
    rfl
  · intro url headers p net r hr hct
    have hh : is_html r = false := by
      unfold is_html
      rw [hct]
      decide
    have hct2 : strContains (lowerStr (r.contentType.getD ""))
        "application/json" = false := by
      rw [hct]
      decide
    by_cases hs : 400 ≤ r.status ∧ r.status < 600
    · cases p with
      | true =>
        rw [check_forced url headers net r hr,
          finishRun_bad_status r _ _ hs.1 hs.2]
      | false =>
        rw [check_nohtml url headers net r hr hh,
          finishRun_bad_status r _ _ hs.1 hs.2]
    · cases p with
      | true =>
        rw [check_forced url headers net r hr, finishRun_not_json r _ _ hs hct2]
      | false =>
        rw [check_nohtml url headers net r hr hh, finishRun_not_json r _ _ hs hct2]

/-- C10 witness:  a mixed-case `Text/HTML; charset=UTF-8` POST response
triggers the fallback GET. -/
theorem spec_C10_witness :
    (check_introspection "https://x" [] false
      { postResult := .ok { status := 200,
                            contentType := some "Text/HTML; charset=UTF-8",
                            jsonBody := none, text := "" },
        getResult := .error .connError }).requests =
      [mkPost "https://x" [], mkGet "https://x" []] := by
  have h := spec_C10
  exact h.2.1 "https://x" []
    { postResult := .ok { status := 200,
                          contentType := some "Text/HTML; charset=UTF-8",
                          jsonBody := none, text := "" },
      getResult := .error .connError }
    { status := 200, contentType := some "Text/HTML; charset=UTF-8",
      jsonBody := none, text := "" } rfl rfl

end VScan
